import Mathlib

/-!
Verification development for the BROT-injector-V2 repository.

The Python sources `aboutadmin.py` and `aboutteleg.py` are shallowly embedded
below.  Loosely structured Python data (raw media objects, dicts returned by
`model_to_dict`) is modelled by the inductive type `PyVal`; machine-level
details that the verified properties do not touch (network sends, logging)
are modelled by their observable effects only.
-/

namespace Brot

/-- JSON-like values modelling the loosely structured Python objects that
`aboutteleg.py` manipulates (dicts produced by `model_to_dict`, lists,
strings, ints, bools and `None`). -/
inductive PyVal where
  | none
  | str (s : String)
  | int (n : Int)
  | bool (b : Bool)
  | list (xs : List PyVal)
  | dict (kvs : List (String × PyVal))
deriving Repr

/-! ### String primitives

Python string operations are modelled on the character lists underlying
Lean strings, so that every definition reduces inside the kernel.  `strip`
removes the surrounding whitespace (Python additionally strips `\f`/`\v`,
which never occur in the texts handled here). -/

/-- Python `s.strip()`. -/
def pyStrip (s : String) : String :=
  String.mk (((s.toList.dropWhile Char.isWhitespace).reverse.dropWhile Char.isWhitespace).reverse)

/-- Python `s[:n]` (slicing counts code points). -/
def pyTake (s : String) (n : Nat) : String := String.mk (s.toList.take n)

/-- Python `s.startswith(pre)`. -/
def pyStartsWith (s pre : String) : Bool := pre.toList.isPrefixOf s.toList

/-- Python `s.endswith(suf)`. -/
def pyEndsWith (s suf : String) : Bool := suf.toList.isSuffixOf s.toList

/-- Replacement of the first occurrence of `needle`, for `"...{}...".format(arg)`. -/
def replaceOnce (needle repl : List Char) : List Char → List Char
  | [] => []
  | c :: rest =>
    if needle.isPrefixOf (c :: rest) then repl ++ (c :: rest).drop needle.length
    else c :: replaceOnce needle repl rest

/-- Python truthiness (`bool(x)`) on modelled values: `None`, `0`, `""`,
`[]` and `{}` are falsy. -/
def pyTruthy : PyVal → Bool
  | .none => false
  | .str s => s != ""
  | .int n => n != 0
  | .bool b => b
  | .list xs => !xs.isEmpty
  | .dict kvs => !kvs.isEmpty

/-- Python `a or b` on values: yields `a` when truthy, else `b`. -/
def pyOrV (a b : PyVal) : PyVal := if pyTruthy a then a else b

/-- Python `d.get(k)` on a dict modelled as an association list: the first
binding of `k`, or `None` when absent (Python dicts have unique keys). -/
def dget (dd : List (String × PyVal)) (k : String) : PyVal :=
  match dd.lookup k with
  | some v => v
  | Option.none => PyVal.none

/-- Python `getattr(x, name, None)` for the modelled plain data values:
dicts, lists, strings and numbers expose no non-callable public attributes,
so the default `None` is returned. -/
def pyGetattr (_ : PyVal) (_ : String) : PyVal := PyVal.none

/-- `model_to_dict` of `aboutteleg.py`: a dict is returned unchanged; the
other modelled values have no `model_dump`/`dict` method and no public
non-callable attributes, so the attribute scan produces an empty dict. -/
def model_to_dict : PyVal → List (String × PyVal)
  | .dict kvs => kvs
  | _ => []

/-- Python `x == 2` for the literal int comparison in `extract_media_items`:
only the int `2` compares equal to `2` among the modelled values. -/
def pyEqInt2 : PyVal → Bool
  | .int n => n == 2
  | _ => false

/-- Python `x == "video"`: only the identical string compares equal. -/
def pyEqStrVideo : PyVal → Bool
  | .str t => t == "video"
  | _ => false

/-! ### The URL regular expression `URL_RE`

`URL_RE = https?://[^\s'"\\]+\.(?:jpe?g|png|webp|gif|mp4|m3u8|mov)(\?[^\s'"\\]*)?`
(case-insensitive), used through `finditer` which scans left to right and
yields non-overlapping matches.  The matcher below follows the backtracking
semantics: the character-class body is greedy (the longest body whose
remainder still matches `\.ext` wins), the alternation tries `jpeg` before
`jpg`, and the optional query part greedily consumes the rest of the run of
class characters when it starts with `?`. -/

def quoteChar : Char := Char.ofNat 39

def dquoteChar : Char := Char.ofNat 34

def backslashChar : Char := Char.ofNat 92

/-- Characters matched by the class `[^\s'"\\]`. -/
def allowedChar (c : Char) : Bool :=
  !c.isWhitespace && c != quoteChar && c != dquoteChar && c != backslashChar

/-- Extension alternatives of `URL_RE` in alternation order (`jpe?g` prefers
the form with `e` present). -/
def urlExts : List (List Char) :=
  ["jpeg", "jpg", "png", "webp", "gif", "mp4", "m3u8", "mov"].map String.toList

/-- Length of the extension matched at the front of an (already lowercased)
character list, if any. -/
def extAt (low : List Char) : Option Nat :=
  urlExts.findSome? (fun e => if e.isPrefixOf low then some e.length else Option.none)

/-- Length of the scheme `https?://` matched at the front of a lowercased
character list (`s?` is greedy). -/
def schemeLen (low : List Char) : Option Nat :=
  if [Char.ofNat 104, Char.ofNat 116, Char.ofNat 116, Char.ofNat 112].isPrefixOf low then
    let r := low.drop 4
    if [Char.ofNat 115, Char.ofNat 58, Char.ofNat 47, Char.ofNat 47].isPrefixOf r then some 8
    else if [Char.ofNat 58, Char.ofNat 47, Char.ofNat 47].isPrefixOf r then some 7
    else Option.none
  else Option.none

/-- Given the maximal run of class characters after the scheme, the end
position of the match inside the run: the greedy body takes the largest
split `body ++ [.] ++ ext`, and a following `?` extends the match over the
rest of the run (the query part). -/
def bodyExtEnd (run : List Char) : Option Nat :=
  ((List.range run.length).reverse).findSome? (fun k =>
    if 1 ≤ k ∧ run.get? k = some (Char.ofNat 46) then
      match extAt ((run.drop (k + 1)).map Char.toLower) with
      | some e =>
        let after := k + 1 + e
        some (if run.get? after = some (Char.ofNat 63) then run.length else after)
      | Option.none => Option.none
    else Option.none)

/-- Length of the `URL_RE` match starting exactly at the head of `cs`,
if any. -/
def matchUrlAt (cs : List Char) : Option Nat :=
  match schemeLen (cs.map Char.toLower) with
  | Option.none => Option.none
  | some sl =>
    let run := (cs.drop sl).takeWhile allowedChar
    match bodyExtEnd run with
    | some e => some (sl + e)
    | Option.none => Option.none

/-- Left-to-right non-overlapping scan of `URL_RE.finditer`.  The fuel
bounds the number of scan steps; every step consumes at least one character,
so `length + 1` fuel is always sufficient. -/
def urlScan : Nat → List Char → List String
  | 0, _ => []
  | _, [] => []
  | fuel + 1, c :: rest =>
    match matchUrlAt (c :: rest) with
    | some len => String.mk ((c :: rest).take len) :: urlScan fuel ((c :: rest).drop len)
    | Option.none => urlScan fuel rest

/-- All `URL_RE` matches of a string, in order. -/
def pyFindUrls (s : String) : List String :=
  urlScan (s.toList.length + 1) s.toList

/-- Order-preserving removal of duplicates with an explicit `seen`
accumulator, as performed by the `seen` sets of `find_urls_in_obj` and
`choose_best_url`. -/
def dedupGo (seen : List String) : List String → List String
  | [] => []
  | u :: rest => if seen.contains u then dedupGo seen rest else u :: dedupGo (u :: seen) rest

/-- Order-preserving removal of duplicates, keeping first occurrences. -/
def dedupFirst (l : List String) : List String := dedupGo [] l

/-- Key-priority order used by `_walk` on dicts in `find_urls_in_obj`. -/
def priorityKeys : List String :=
  ["video_url", "display_url", "display_src", "thumbnail_url", "image_url",
   "url", "src", "secure_url"]

/-- Values of a dict in the order `_walk` visits them: first the bindings of
the priority keys that are present, then every value (the `seen` set removes
the repetitions afterwards). -/
def walkOrder (kvs : List (String × PyVal)) : List PyVal :=
  (priorityKeys.filterMap (fun k => kvs.lookup k)) ++ kvs.map Prod.snd

/-- Python `str(x)` for the scalar fallback branch of `_walk`. -/
def pyStrRepr : PyVal → String
  | .int n => toString n
  | .bool b => if b then "True" else "False"
  | _ => ""

mutual

/-- Nesting depth of a modelled value (leaves count 1). -/
def pyDepth : PyVal → Nat
  | .none => 1
  | .str _ => 1
  | .int _ => 1
  | .bool _ => 1
  | .list xs => pyDepthList xs + 1
  | .dict kvs => pyDepthKVs kvs + 1

/-- Maximal depth of the values of a list. -/
def pyDepthList : List PyVal → Nat
  | [] => 0
  | x :: xs => max (pyDepth x) (pyDepthList xs)

/-- Maximal depth of the values of an association list. -/
def pyDepthKVs : List (String × PyVal) → Nat
  | [] => 0
  | kv :: kvs => max (pyDepth kv.2) (pyDepthKVs kvs)

end

/-- The recursive `_walk` of `find_urls_in_obj`, before deduplication.  The
fuel bounds the recursion depth; `pyDepth v` dominates the nesting depth of
`v`, so the fuel never runs out on the intended argument. -/
def walkUrls : Nat → PyVal → List String
  | 0, _ => []
  | _ + 1, .none => []
  | _ + 1, .str s => pyFindUrls s
  | fuel + 1, .dict kvs => (walkOrder kvs).flatMap (walkUrls fuel)
  | fuel + 1, .list xs => xs.flatMap (walkUrls fuel)
  | _ + 1, .int n => pyFindUrls (pyStrRepr (.int n))
  | _ + 1, .bool b => pyFindUrls (pyStrRepr (.bool b))

/-- `find_urls_in_obj` of `aboutteleg.py`: walk the object collecting
`URL_RE` matches, keeping only first occurrences. -/
def find_urls_in_obj (v : PyVal) : List String :=
  dedupFirst (walkUrls (pyDepth v) v)

/-- Lowercasing used to model the `re.I` searches (URLs are ASCII). -/
def pyLower (s : String) : String := String.mk (s.toList.map Char.toLower)

/-- Substring test on character lists. -/
def listInfix (needle : List Char) : List Char → Bool
  | [] => needle.isEmpty
  | c :: rest => needle.isPrefixOf (c :: rest) || listInfix needle rest

/-- Substring test on strings. -/
def strContains (hay needle : String) : Bool := listInfix needle.toList hay.toList

/-- The search `re.search(r"\.mp4(\?|$)|\.m3u8(\?|$)|/v/", u, re.I)` of
`choose_best_url`. -/
def isVideoPrefUrl (u : String) : Bool :=
  let l := pyLower u
  strContains l ".mp4?" || pyEndsWith l ".mp4" ||
  strContains l ".m3u8?" || pyEndsWith l ".m3u8" || strContains l "/v/"

/-- The search `re.search(r"\.mp4(\?|$)|\.m3u8", url, re.I)` used for the
`kind` decision in `extract_media_items` and the senders. -/
def kindVideoSearch (u : String) : Bool :=
  let l := pyLower u
  strContains l ".mp4?" || pyEndsWith l ".mp4" || strContains l ".m3u8"

/-- `choose_best_url` of `aboutteleg.py`: `None` on an empty candidate list,
otherwise deduplicate keeping first occurrences, return the first
video-looking URL when `prefer_video`, else the first URL. -/
def choose_best_url (urls : List String) (prefer_video : Bool) : Option String :=
  if urls.isEmpty then Option.none
  else
    let uniq := dedupFirst urls
    match (if prefer_video then uniq.find? isVideoPrefUrl else Option.none) with
    | some u => some u
    | Option.none => uniq.head?

/-- Keys probed by `safe_caption` on the dict form. -/
def captionKeys : List String := ["caption_text", "caption", "title", "text", "description"]

/-- Python `isinstance(v, str) and v.strip()`: the stripped string when `v`
is a string with non-blank content. -/
def strStripNonempty : PyVal → Option String
  | .str s => let t := pyStrip s; if t = "" then Option.none else some t
  | _ => Option.none

/-- `safe_caption` of `aboutteleg.py`.  The leading `getattr` probes return
`None` on the modelled plain data values; any shape mismatch falls into the
function's own catch-all and produces `"No caption"`. -/
def safe_caption (media : PyVal) : String :=
  let dd := model_to_dict media
  match captionKeys.findSome? (fun k => strStripNonempty (dget dd k)) with
  | some c => c
  | Option.none =>
    match dget dd "edge_media_to_caption" with
    | .dict emtc =>
      match pyOrV (dget emtc "edges") (.list []) with
      | .list (.dict e0 :: _) =>
        match pyOrV (dget e0 "node") (.dict []) with
        | .dict nkvs =>
          match strStripNonempty (dget nkvs "text") with
          | some t => t
          | Option.none => "No caption"
        | _ => "No caption"
      | _ => "No caption"
    | _ => "No caption"

/-- A flattened media entry as produced by `extract_media_items`
(`{"url": ..., "kind": ..., "caption": ..., "pk": ...}`). -/
structure MediaItem where
  url : Option String
  kind : String
  caption : String
  pk : PyVal
deriving Repr

/-- Python `url and re.search(r"\.mp4(\?|$)|\.m3u8", url or "", re.I)`:
falsy urls (`None`, `""`) yield false. -/
def urlKindVideo : Option String → Bool
  | some u => u != "" && kindVideoSearch u
  | Option.none => false

/-- Carousel container keys probed by `extract_media_items`, in order. -/
def carouselKeys : List String := ["carousel_media", "resources", "items", "carousel_items"]

/-- Python `isinstance(block, list) and block`. -/
def isNonemptyList : PyVal → Bool
  | .list xs => !xs.isEmpty
  | _ => false

/-- Elements of a modelled list value. -/
def asList : PyVal → List PyVal
  | .list xs => xs
  | _ => []

/-- One flattened sub-item of a carousel, as built by the inner loop of
`extract_media_items` (`str(url)` is the identity on the modelled urls). -/
def mkSubItem (pk : PyVal) (sub : PyVal) : MediaItem :=
  let sdict := model_to_dict sub
  let prefer_video := pyTruthy (dget sdict "is_video") || pyEqInt2 (dget sdict "media_type")
  let urls := find_urls_in_obj (.dict sdict)
  let url := choose_best_url urls prefer_video
  let kind := if prefer_video || urlKindVideo url then "video" else "photo"
  ⟨url, kind, safe_caption sub, pk⟩

/-- `extract_media_items` of `aboutteleg.py`: flatten a carousel into one
item per sub-item, otherwise produce exactly one item for the post.  The
model is total, so the defensive `except` fallback of the source is
unreachable here. -/
def extract_media_items (media : PyVal) : List MediaItem :=
  let dd := model_to_dict media
  let pk := pyOrV (dget dd "pk") (pyOrV (dget dd "id")
    (pyOrV (pyGetattr media "pk") (pyGetattr media "id")))
  match carouselKeys.find? (fun ck => isNonemptyList (dget dd ck)) with
  | some ck => (asList (dget dd ck)).map (mkSubItem pk)
  | Option.none =>
    let prefer_video := pyTruthy (dget dd "is_video") || pyEqInt2 (dget dd "media_type")
      || pyEqStrVideo (dget dd "type")
    let urls := find_urls_in_obj (.dict dd)
    let url := choose_best_url urls prefer_video
    let kind := if prefer_video || urlKindVideo url then "video" else "photo"
    [⟨url, kind, safe_caption media, pk⟩]

/-- Python truthiness of `si.get("url")`: present and non-empty. -/
def urlTruthy : Option String → Bool
  | some s => s != ""
  | Option.none => false

/-- Ingestion of fetched medias into the session media list, as performed by
the `view_posts` branch of `handle_callback_query` (and the refetch branch
of `_send_posts_page_for_query`): every extracted item whose `url` is truthy
is appended, in order. -/
def ingest_media_items (medias : List PyVal) : List MediaItem :=
  ((medias.map extract_media_items).flatten).filter (fun si => urlTruthy si.url)

/-! ### Posts pager (`_send_posts_page_for_query`) -/

/-- The fixed page size of the posts pager. -/
def page_size : Nat := 4

/-- `total_pages = (len(media_items) + page_size - 1) // page_size if media_items else 1`. -/
def total_pages (media_items : List MediaItem) : Nat :=
  if media_items.isEmpty then 1 else (media_items.length + page_size - 1) / page_size

/-- `page_index = max(0, min(page_index, total_pages - 1))`; the requested
index is an arbitrary integer parsed from the callback data. -/
def clamped_page_index (media_items : List MediaItem) (page_index : Int) : Nat :=
  (max 0 (min page_index ((total_pages media_items : Int) - 1))).toNat

/-- The slice `media_items[start : start + page_size]` sent for a requested
page index. -/
def posts_page (media_items : List MediaItem) (page_index : Int) : List MediaItem :=
  let start := clamped_page_index media_items page_index * page_size
  (media_items.drop start).take page_size

/-- An `InputMediaPhoto`/`InputMediaVideo` entry of the media group built by
`_send_posts_page_for_query`. -/
structure InputMediaV where
  is_video : Bool
  media : String
  caption : Option String
deriving Repr

/-- The group entry built for one item with a truthy url. -/
def media_item_to_input (mi : MediaItem) : InputMediaV :=
  let url := match mi.url with
    | some u => u
    | Option.none => ""
  let cap := pyTake mi.caption 1024
  { is_video := (mi.kind == "video") || kindVideoSearch url,
    media := url,
    caption := if cap = "" then Option.none else some cap }

/-- The media-group building loop of `_send_posts_page_for_query`: items
whose `url` is falsy (`None` or `""`) are skipped (`continue`), the rest
become photo/video entries with captions truncated to 1024 characters. -/
def build_media_group (items : List MediaItem) : List InputMediaV :=
  items.filterMap (fun mi =>
    match mi.url with
    | Option.none => Option.none
    | some url =>
      if url = "" then Option.none
      else
        let cap := pyTake mi.caption 1024
        some { is_video := (mi.kind == "video") || kindVideoSearch url,
               media := url,
               caption := if cap = "" then Option.none else some cap })

/-! ### Actor resolver (`_actor_from_update` of `aboutadmin.py`) -/

/-- The fields of a chat user visible to `_actor_from_update`; every field
may be absent in a raw interaction record. -/
structure UserV where
  id : Option Int
  username : Option String
  full_name : Option String
  first_name : Option String
  last_name : Option String
deriving Repr

/-- A callback query carrying its originating user. -/
structure CallbackQueryV where
  from_user : Option UserV
deriving Repr

/-- A shared contact. -/
structure ContactV where
  phone_number : Option String
deriving Repr

/-- An inbound message; only the optional contact matters to the resolver. -/
structure MessageV where
  contact : Option ContactV
deriving Repr

/-- A raw inbound interaction (`Update`); any field may be absent. -/
structure UpdateV where
  effective_user : Option UserV
  callback_query : Option CallbackQueryV
  message : Option MessageV
  user_data : Option (List (String × String))
deriving Repr

/-- The actor dict built by `_actor_from_update`
(`{"id": ..., "username": ..., "name": ..., "phone": ..., "language": ...}`). -/
structure Actor where
  id : Option Int := Option.none
  username : Option String := Option.none
  name : Option String := Option.none
  phone : Option String := Option.none
  language : Option String := Option.none
deriving Repr, DecidableEq

/-- The identity source picked by `_actor_from_update`: the callback query
user when present, else the effective user. -/
def resolvedUserOf (u : UpdateV) : Option UserV :=
  match u.callback_query with
  | some cb =>
    match cb.from_user with
    | some fu => some fu
    | Option.none => u.effective_user
  | Option.none => u.effective_user

/-- The name expression
`getattr(user, "full_name", None) or ((first_name or "") + (" " + last_name if last_name else "")).strip()`. -/
def actorNameOf (us : UserV) : String :=
  let first := match us.first_name with
    | some s => s
    | Option.none => ""
  let lastPart := match us.last_name with
    | some s => if s = "" then "" else " " ++ s
    | Option.none => ""
  match us.full_name with
  | some s => if s = "" then pyStrip (first ++ lastPart) else s
  | Option.none => pyStrip (first ++ lastPart)

/-- `_actor_from_update` of `aboutadmin.py`: build the actor dict from a
possibly absent update; missing identity fields stay `None`, the name falls
back to the concatenated first/last names, the phone comes from a shared
contact and the language from `_user_data` when non-empty. -/
def actor_from_update (update : Option UpdateV) : Actor :=
  match update with
  | Option.none => {}
  | some u =>
    let a1 : Actor :=
      match resolvedUserOf u with
      | some us => { id := us.id, username := us.username, name := some (actorNameOf us) }
      | Option.none => {}
    let a2 : Actor :=
      match u.message with
      | some msg =>
        match msg.contact with
        | some c => { a1 with phone := c.phone_number }
        | Option.none => a1
      | Option.none => a1
    match u.user_data with
    | some ud =>
      if ud.isEmpty then a2
      else { a2 with language := some ((ud.lookup "language").getD "en") }
    | Option.none => a2

/-- Python `x or "unknown"` on an optional string field, as used by
`_immediate_admin_alert` when rendering the actor. -/
def alertField (v : Option String) : String :=
  match v with
  | some s => if s = "" then "unknown" else s
  | Option.none => "unknown"

/-- Rendering of the actor id in `_immediate_admin_alert`:
`str(actor.get("id") or "unknown")`. -/
def alertUid (v : Option Int) : String :=
  match v with
  | some n => if n = 0 then "unknown" else toString n
  | Option.none => "unknown"

/-! ### Buffered admin notifications (`buffer_admin_action` / `_delayed_send`)

The event loop is single-threaded and cooperative; `buffer_admin_action`
contains no `await`, so its body runs atomically.  A cancelled
`_delayed_send` task receives its `CancelledError` at the next event-loop
iteration, which in wall-clock time happens immediately after the record
call that cancelled it (the record calls of a trace are at least one loop
iteration apart).  Timer tasks are created with wake times `t + 60` for
strictly increasing record times `t`, so the pending list is always sorted
by wake time. -/

/-- One entry of `app_data["admin_action_buffer"]`; the formatted wall-clock
timestamp of the source is modelled by the record time. -/
structure AdminEvent where
  ts : Nat
  actor : Actor
  action : String
  target : Option String
  extra : Option String
deriving Repr, DecidableEq

/-- Process-wide state of the buffered admin-notification system, plus the
surrounding event-loop bookkeeping: the sleeping `_delayed_send` tasks
(id and wake time, in creation order) and the delivered summaries (each the
buffer contents at its flush). -/
structure SimState where
  admin_chat_id : Option Int
  admin_action_buffer : List AdminEvent
  admin_last_activity_ts : Nat
  admin_timer_task : Option Nat
  pending : List (Nat × Nat)
  next_task_id : Nat
  sent_summaries : List (List AdminEvent)
deriving Repr, DecidableEq

/-- Python truthiness of the configured `admin_chat_id`. -/
def adminConfigured : Option Int → Bool
  | some n => n != 0
  | Option.none => false

/-- The body of `_delayed_send` when the task wakes uncancelled at time
`wake` (its `asyncio.sleep(60)` elapsed): skip when newer activity arrived
during the wait or the buffer is empty, otherwise deliver the buffer as one
summary; the `finally` block then clears the buffer and the task handle in
every case. -/
def delayed_send_fire (s : SimState) (wake : Nat) : SimState :=
  let s1 :=
    if wake - s.admin_last_activity_ts < 60 then s
    else if s.admin_action_buffer.isEmpty then s
    else { s with sent_summaries := s.sent_summaries ++ [s.admin_action_buffer] }
  { s1 with admin_action_buffer := [], admin_timer_task := Option.none }

/-- The body of `_delayed_send` when the task is cancelled while sleeping:
the `except asyncio.CancelledError` branch returns, and the `finally` block
still clears the buffer and the task handle. -/
def delayed_send_cancelled (s : SimState) : SimState :=
  { s with admin_action_buffer := [], admin_timer_task := Option.none }

/-- `buffer_admin_action` of `aboutadmin.py`, recording one action at time
`t`: a no-op without a configured admin; otherwise append the event, update
`admin_last_activity_ts`, cancel the previous timer task if it is still
pending, and schedule a fresh `_delayed_send` task waking at `t + 60`.  The
cancelled task then runs `delayed_send_cancelled` at the next event-loop
iteration, i.e. still at time `t`. -/
def buffer_admin_action (s : SimState) (t : Nat) (actor : Actor) (action : String)
    (target : Option String) (extra : Option String) : SimState :=
  if adminConfigured s.admin_chat_id then
    let e : AdminEvent := ⟨t, actor, action, target, extra⟩
    let s1 := { s with admin_action_buffer := s.admin_action_buffer ++ [e],
                       admin_last_activity_ts := t }
    let cancelPrev :=
      match s1.admin_timer_task with
      | some tid => s1.pending.any (fun p => p.1 == tid)
      | Option.none => false
    let prevId := s1.admin_timer_task
    let tid := s1.next_task_id
    let s2 := { s1 with
      pending := (if cancelPrev then s1.pending.filter (fun p => some p.1 ≠ prevId)
                  else s1.pending) ++ [(tid, t + 60)],
      next_task_id := tid + 1,
      admin_timer_task := some tid }
    if cancelPrev then delayed_send_cancelled s2 else s2
  else s

/-- Run every sleeping task whose wake time is strictly before `upto`, in
wake order; the list argument mirrors `s.pending`. -/
def fireDueAux : List (Nat × Nat) → SimState → Nat → SimState
  | [], s, _ => s
  | (_, w) :: rest, s, upto =>
    if w < upto then fireDueAux rest (delayed_send_fire { s with pending := rest } w) upto
    else s

/-- Run every sleeping task due strictly before `upto`. -/
def fireDue (s : SimState) (upto : Nat) : SimState := fireDueAux s.pending s upto

/-- One `record` call of a trace: its time and the event payload. -/
structure RecordCall where
  t : Nat
  actor : Actor
  action : String
  target : Option String
  extra : Option String
deriving Repr, DecidableEq

/-- Process the record calls of a trace in time order, letting due timer
tasks fire between them. -/
def runRecords : SimState → List RecordCall → SimState
  | s, [] => s
  | s, r :: rest =>
    runRecords (buffer_admin_action (fireDue s r.t) r.t r.actor r.action r.target r.extra) rest

/-- Fresh process state. -/
def initSim (admin : Option Int) : SimState :=
  ⟨admin, [], 0, Option.none, [], 0, []⟩

/-- Run a whole trace and then let every timer task due up to the horizon
fire. -/
def runSim (admin : Option Int) (recs : List RecordCall) (horizon : Nat) : SimState :=
  fireDue (runRecords (initSim admin) recs) (horizon + 1)

/-! ### Conversation state machine (`aboutteleg.py`) -/

/-- The conversation states `SELECTING_LANGUAGE, CHOOSING, REPORTING = range(3)`. -/
inductive ConvState where
  | SELECTING_LANGUAGE
  | CHOOSING
  | REPORTING
deriving Repr, DecidableEq

/-- The user-facing strings of one language, restricted to the entries the
embedded handlers read. -/
structure Translation where
  main_menu_search : String
  main_menu_help : String
  main_menu_report : String
  help_text : String
  search_prompt : String
  no_text : String
  search_failed : String
  no_users_found : String
  report_prompt : String
  report_empty : String
  report_sent : String
  report_failed : String
  no_admin : String
deriving Repr, DecidableEq

/-- The English entries of `TRANSLATIONS`. -/
def enT : Translation :=
  { main_menu_search := "Search"
    main_menu_help := "Help"
    main_menu_report := "Report"
    help_text := "Usage:\n- Send a username ..."
    search_prompt := "🔍 Send a username (or paste an Instagram profile URL):"
    no_text := "Please send a username or choose an option from the menu."
    search_failed := "❌ Search failed (Instagram might be blocking requests). Try again later."
    no_users_found := "No users found for '\x7b\x7d'."
    report_prompt := "✉️ Please type your report message; it will be forwarded to the admin."
    report_empty := "Empty report. Cancelled."
    report_sent := "✅ Report sent. Thank you!"
    report_failed := "Failed to send report to admin."
    no_admin := "No admin configured to receive reports. (ADMIN_CHAT_ID not set)" }

/-- The Russian entries of `TRANSLATIONS`. -/
def ruT : Translation :=
  { main_menu_search := "Поиск"
    main_menu_help := "Помощь"
    main_menu_report := "Сообщить"
    help_text := "Использование:\n- Отправьте имя пользователя ..."
    search_prompt := "🔍 Отправьте имя пользователя (или вставьте URL профиля Instagram):"
    no_text := "Пожалуйста, отправьте имя пользователя или выберите опцию из меню."
    search_failed := "❌ Поиск не удался (Instagram может блокировать запросы). Попробуйте позже."
    no_users_found := "Пользователи не найдены для '\x7b\x7d'."
    report_prompt := "✉️ Введите ваше сообщение для отчета; оно будет отправлено администратору."
    report_empty := "Пустой отчет. Отменено."
    report_sent := "✅ Отчет отправлен. Спасибо!"
    report_failed := "Не удалось отправить отчет администратору."
    no_admin := "Администратор не настроен для получения отчетов. (ADMIN_CHAT_ID не установлен)" }

/-- The `TRANSLATIONS` table, keyed by language code. -/
def TRANSLATIONS : List (String × Translation) := [("en", enT), ("ru", ruT)]

/-- Python `data.split(":", 1)[1]` for a string containing a colon. -/
def splitColonTail (s : String) : String :=
  String.mk ((s.toList.dropWhile (fun c => c != Char.ofNat 58)).drop 1)

/-- `select_language` of `aboutteleg.py`, reduced to its observable result:
the returned conversation state and the language stored in the session.
Callback data not starting with `lang:` re-prompts and stays in
`SELECTING_LANGUAGE` storing nothing; otherwise the code after the first
colon is stored, falling back to `"en"` when it is not a key of
`TRANSLATIONS`, and the state becomes `CHOOSING`. -/
def select_language (data : String) : ConvState × Option String :=
  if pyStartsWith data "lang:" then
    let language := splitColonTail data
    let language := if (TRANSLATIONS.map Prod.fst).contains language then language else "en"
    (ConvState.CHOOSING, some language)
  else (ConvState.SELECTING_LANGUAGE, Option.none)

/-- `.format` with a single positional placeholder. -/
def pyFormat1 (template arg : String) : String :=
  String.mk (replaceOnce [Char.ofNat 123, Char.ofNat 125] arg.toList template.toList)

/-- `extract_username_from_text` of `aboutteleg.py`: the first
case-insensitive occurrence of `instagram.com/` followed by at least one
character outside `/?#` and whitespace yields that character group
(stripped); otherwise the stripped text itself.  The group contains neither
whitespace nor slashes, so the trailing `.strip().strip("/")` is the
identity on it. -/
def findIgUsername : List Char → Option String
  | [] => Option.none
  | c :: rest =>
    if "instagram.com/".toList.isPrefixOf ((c :: rest).map Char.toLower) then
      let grp := ((c :: rest).drop 14).takeWhile (fun ch =>
        !(ch == Char.ofNat 47 || ch == Char.ofNat 63 || ch == Char.ofNat 35 || ch.isWhitespace))
      if grp.isEmpty then findIgUsername rest else some (String.mk grp)
    else findIgUsername rest

/-- `extract_username_from_text`. -/
def extract_username_from_text (text : String) : String :=
  let text := pyStrip text
  match findIgUsername text.toList with
  | some g => g
  | Option.none => text

/-- `handle_choice` of `aboutteleg.py`, reduced to its observable result:
the returned conversation state and the texts replied to the user.  The
search-path collaborator call `insta.search_users` is an oracle argument
(`Option.none` models a failed search, `some []` no results).  The admin
notifications and the session bookkeeping (cached actor fields,
`expecting_username`) do not affect the returned state and are omitted.
`TRANSLATIONS[language]` raises `KeyError` on an unknown stored language,
modelled by `Option.none`. -/
def handle_choice (storedLang : Option String) (msgText : Option String)
    (searchResult : Option (List String)) : Option (ConvState × List String) :=
  let language := storedLang.getD "en"
  match TRANSLATIONS.lookup language with
  | Option.none => Option.none
  | some t =>
    let text := pyStrip (msgText.getD "")
    if text = "" then some (ConvState.CHOOSING, [t.no_text])
    else if pyLower text = pyLower t.main_menu_search then
      some (ConvState.CHOOSING, [t.search_prompt])
    else if pyLower text = pyLower t.main_menu_help then
      some (ConvState.CHOOSING, [t.help_text])
    else if pyLower text = pyLower t.main_menu_report then
      some (ConvState.REPORTING, [t.report_prompt])
    else
      let username_q := extract_username_from_text text
      match searchResult with
      | Option.none => some (ConvState.CHOOSING, [t.search_failed])
      | some [] => some (ConvState.CHOOSING, [pyFormat1 t.no_users_found username_q])
      | some (_ :: _) => some (ConvState.CHOOSING, [])

/-- `handle_report_message` of `aboutteleg.py`, reduced to its observable
result.  `sendOk` models whether the admin-forwarding block ran without an
exception (`False` selects the `except` branch). -/
def handle_report_message (storedLang : Option String) (msgText : Option String)
    (admin_chat_id : Option Int) (sendOk : Bool) : Option (ConvState × List String) :=
  let language := storedLang.getD "en"
  match TRANSLATIONS.lookup language with
  | Option.none => Option.none
  | some t =>
    let text := pyStrip (msgText.getD "")
    if text = "" then some (ConvState.CHOOSING, [t.report_empty])
    else if adminConfigured admin_chat_id then
      some (ConvState.CHOOSING, [if sendOk then t.report_sent else t.report_failed])
    else some (ConvState.CHOOSING, [t.no_admin])

/-! ### Concrete fixtures used by the theorems -/

/-- A carousel post with one resolvable and one unresolvable sub-item. -/
def c8Carousel : PyVal :=
  .dict [("pk", .int 7),
         ("carousel_media", .list
           [.dict [("display_url", .str "https://cdn.example.com/a.jpg")],
            .dict [("note", .str "no media here")]])]

/-- A single-media post resolving to a fixed URL. -/
def c6Media : PyVal :=
  .dict [("display_url", .str "https://cdn.example.com/a.jpg")]

/-- A raw interaction carrying no identity information at all. -/
def emptyUpdate : UpdateV :=
  ⟨Option.none, Option.none, Option.none, Option.none⟩

/-- A trace of four record calls spaced less than 60 time units apart —
the concrete scenario of the specification (t = 0, 10, 20, 55). -/
def burstTrace : List RecordCall :=
  [⟨0, {}, "searched", Option.none, Option.none⟩,
   ⟨10, {}, "searched", Option.none, Option.none⟩,
   ⟨20, {}, "profile_shown", Option.none, Option.none⟩,
   ⟨55, {}, "viewed_posts_page", Option.none, Option.none⟩]

/-- A trace of two record calls 10 time units apart. -/
def pairTrace : List RecordCall :=
  [⟨0, {}, "requested_posts", Option.none, Option.none⟩,
   ⟨10, {}, "requested_stories", Option.none, Option.none⟩]

/-- A trace of three record calls 1 time unit apart; the second leaves the
timer handle cleared, so the third does not cancel the second timer and
that timer later fires superseded. -/
def tightTrace : List RecordCall :=
  [⟨0, {}, "opened_highlight", Option.none, Option.none⟩,
   ⟨1, {}, "opened_highlight", Option.none, Option.none⟩,
   ⟨2, {}, "opened_highlight", Option.none, Option.none⟩]

/-! ## Theorems -/

/-- A single record call followed by a quiet period does deliver its
one-event summary; the model is not degenerate. -/
example :
    (runSim (some 1) [⟨0, {}, "searched", Option.none, Option.none⟩] 100).sent_summaries
      = [[⟨0, {}, "searched", Option.none, Option.none⟩]] := rfl

/-- Records spaced more than 60 units apart each get their own summary. -/
example :
    ((runSim (some 1) [⟨0, {}, "a", Option.none, Option.none⟩,
        ⟨100, {}, "b", Option.none, Option.none⟩] 300).sent_summaries).map
      (List.map AdminEvent.action) = [["a"], ["b"]] := rfl

/-- C1: the claim promises that for the burst recorded at t = 0, 10, 20, 55
(each gap below D = 60) exactly one aggregate summary containing all four
events is eventually delivered.  Evaluating the embedded code on that very
trace shows that no summary is ever delivered and every recorded event is
discarded: each cancellation (and each superseded fire) runs the `finally`
block of `_delayed_send`, which clears the buffer.  A lone record call (see
the example above) does flush, so the defect is specific to bursts. -/
theorem c1_debounce_burst_loses_events :
    (runSim (some 1) burstTrace 300).sent_summaries = []
  ∧ (runSim (some 1) burstTrace 300).admin_action_buffer = [] :=
  ⟨rfl, rfl⟩

/-- C2: the claim promises that cancelling a pending timer never drops
already-buffered events and that a superseded fire is a no-op.  Evaluating
the embedded code: right after the second record of `pairTrace` (t = 0 and
t = 10, nothing flushed yet) the buffer is already empty — the cancelled
task's `finally` block dropped both buffered events.  In `tightTrace` the
timer created at t = 1 survives (its handle was cleared by an older
cancellation) and fires superseded at t = 61; its `finally` block discards
the event recorded at t = 2, so no summary is ever delivered there
either. -/
theorem c2_cancellation_drops_buffered_events :
    (runRecords (initSim (some 1)) pairTrace).admin_action_buffer = []
  ∧ (runRecords (initSim (some 1)) pairTrace).sent_summaries = []
  ∧ (runSim (some 1) tightTrace 300).sent_summaries = [] :=
  ⟨rfl, rfl, rfl⟩

/-- C7: without a configured admin destination, `buffer_admin_action`
returns the application state entirely unchanged: no event is appended, the
last-activity timestamp is untouched, and no timer task is scheduled. -/
theorem c7_record_noop_without_admin (buf : List AdminEvent) (ts : Nat)
    (th : Option Nat) (pend : List (Nat × Nat)) (nid : Nat)
    (sent : List (List AdminEvent)) (t : Nat) (actor : Actor) (action : String)
    (target extra : Option String) :
    buffer_admin_action ⟨Option.none, buf, ts, th, pend, nid, sent⟩ t actor action target extra
      = ⟨Option.none, buf, ts, th, pend, nid, sent⟩ :=
  rfl

/-- C4 counterexample: resolving an interaction that carries no username,
name or id yields an actor whose three identity fields are all `None` — the
absence is propagated, none of the fields holds the "unknown" marker the
claim promises. -/
theorem c4_resolver_propagates_absence :
    (actor_from_update (some emptyUpdate)).id = Option.none
  ∧ (actor_from_update (some emptyUpdate)).username = Option.none
  ∧ (actor_from_update (some emptyUpdate)).name = Option.none
  ∧ (actor_from_update (some emptyUpdate)).username ≠ some "unknown"
  ∧ (actor_from_update (some emptyUpdate)).name ≠ some "unknown" := by
  refine ⟨rfl, rfl, rfl, ?_, ?_⟩ <;> decide

/-- C4 amended: `_actor_from_update` never raises and leaves the identity
fields of an update without a user as explicit `None` placeholders; the
"unknown" sentinels appear downstream, when `_immediate_admin_alert`
renders those fields. -/
theorem c4_amended_unknown_at_rendering (u : UpdateV)
    (hcb : u.callback_query = Option.none) (heu : u.effective_user = Option.none) :
    (actor_from_update (some u)).id = Option.none
  ∧ (actor_from_update (some u)).username = Option.none
  ∧ (actor_from_update (some u)).name = Option.none
  ∧ alertUid (actor_from_update (some u)).id = "unknown"
  ∧ alertField (actor_from_update (some u)).username = "unknown"
  ∧ alertField (actor_from_update (some u)).name = "unknown" := by
  rcases u with ⟨eu, cb, msg, ud⟩
  replace hcb : cb = Option.none := hcb
  replace heu : eu = Option.none := heu
  subst hcb; subst heu
  rcases msg with _ | ⟨_ | c⟩ <;> rcases ud with _ | (_ | ⟨p, l⟩) <;>
    exact ⟨rfl, rfl, rfl, rfl, rfl, rfl⟩

/-- C4 amended, witnessed at the concrete empty interaction. -/
theorem c4_amended_unknown_at_rendering_witness :
    emptyUpdate.callback_query = Option.none
  ∧ emptyUpdate.effective_user = Option.none
  ∧ ((actor_from_update (some emptyUpdate)).id = Option.none
      ∧ (actor_from_update (some emptyUpdate)).username = Option.none
      ∧ (actor_from_update (some emptyUpdate)).name = Option.none
      ∧ alertUid (actor_from_update (some emptyUpdate)).id = "unknown"
      ∧ alertField (actor_from_update (some emptyUpdate)).username = "unknown"
      ∧ alertField (actor_from_update (some emptyUpdate)).name = "unknown") :=
  ⟨rfl, rfl, c4_amended_unknown_at_rendering emptyUpdate rfl rfl⟩

/-- C9: `extract_media_items` is total on every modelled input and always
returns a non-empty list; on an input from which nothing can be extracted it
returns exactly one fallback item with `url = None` and kind `"photo"`. -/
theorem c9_extract_total_nonempty :
    (∀ media : PyVal, extract_media_items media ≠ [])
  ∧ extract_media_items (.dict [])
      = [⟨Option.none, "photo", "No caption", PyVal.none⟩] := by
  refine ⟨?_, rfl⟩
  intro media
  cases hf : carouselKeys.find? (fun ck => isNonemptyList (dget (model_to_dict media) ck)) with
  | none => simp [extract_media_items, hf]
  | some ck =>
    have hp := List.find?_some hf
    cases hv : dget (model_to_dict media) ck with
    | list xs =>
      cases xs with
      | nil => rw [hv] at hp; simp [isNonemptyList] at hp
      | cons x xs => simp [extract_media_items, hf, hv, asList]
    | none => rw [hv] at hp; simp [isNonemptyList] at hp
    | str s => rw [hv] at hp; simp [isNonemptyList] at hp
    | int n => rw [hv] at hp; simp [isNonemptyList] at hp
    | bool b => rw [hv] at hp; simp [isNonemptyList] at hp
    | dict kvs => rw [hv] at hp; simp [isNonemptyList] at hp

/-- C10: whenever `select_language` processes callback data starting with
`lang:`, the stored language is a key of `TRANSLATIONS` (so every later
lookup by the stored language succeeds), and any code other than `en` and
`ru` falls back to `en`. -/
theorem c10_stored_language_translatable (data : String)
    (h : pyStartsWith data "lang:" = true) :
    ∃ l, (select_language data).2 = some l
  ∧ (select_language data).1 = ConvState.CHOOSING
  ∧ (TRANSLATIONS.lookup l).isSome = true
  ∧ (l = "en" ∨ l = "ru")
  ∧ (splitColonTail data ≠ "en" → splitColonTail data ≠ "ru" → l = "en") := by
  unfold select_language
  rw [if_pos h]
  by_cases h1 : splitColonTail data = "en"
  · refine ⟨"en", ?_, rfl, rfl, Or.inl rfl, fun hc _ => absurd h1 hc⟩
    simp [TRANSLATIONS, h1]
  · by_cases h2 : splitColonTail data = "ru"
    · refine ⟨"ru", ?_, rfl, rfl, Or.inr rfl, fun _ hc => absurd h2 hc⟩
      simp [TRANSLATIONS, h2]
    · refine ⟨"en", ?_, rfl, rfl, Or.inl rfl, fun _ _ => rfl⟩
      simp [TRANSLATIONS, h1, h2]

/-- C10, witnessed at the unsupported code `de`. -/
theorem c10_stored_language_translatable_witness :
    (pyStartsWith "lang:de" "lang:" = true)
  ∧ (∃ l, (select_language "lang:de").2 = some l
      ∧ (select_language "lang:de").1 = ConvState.CHOOSING
      ∧ (TRANSLATIONS.lookup l).isSome = true
      ∧ (l = "en" ∨ l = "ru")
      ∧ (splitColonTail "lang:de" ≠ "en" → splitColonTail "lang:de" ≠ "ru" → l = "en")) :=
  ⟨rfl, c10_stored_language_translatable "lang:de" rfl⟩

/-- C8 helper: the media-group loop keeps exactly the items with a truthy
url, converting each with `media_item_to_input`. -/
theorem build_media_group_eq_filter (items : List MediaItem) :
    build_media_group items
      = (items.filter (fun mi => urlTruthy mi.url)).map media_item_to_input := by
  induction items with
  | nil => rfl
  | cons mi rest ih =>
    cases hu : mi.url with
    | none =>
      simp only [build_media_group, List.filterMap_cons, List.filter_cons, hu, urlTruthy]
      simpa [build_media_group] using ih
    | some u =>
      by_cases he : u = ""
      · simp only [build_media_group, List.filterMap_cons, List.filter_cons, hu, urlTruthy, he]
        simpa [build_media_group] using ih
      · simp only [build_media_group, List.filterMap_cons, List.filter_cons, hu, urlTruthy]
        rw [if_neg he]
        have : (u != "") = true := by simpa using he
        simp only [this, if_true, List.map_cons]
        refine congrArg₂ _ ?_ (by simpa [build_media_group] using ih)
        simp [media_item_to_input, hu]

/-- C8: an extracted item whose url is unresolvable is still emitted
(`c8Carousel` flattens to two items, the second with `url = None`), every
item ingested into the session media list has a truthy url, and the
media-group building loop of the page sender keeps exactly the items with a
truthy url — items without a url are never part of what is sent. -/
theorem c8_unresolvable_emitted_but_excluded :
    extract_media_items c8Carousel
      = [⟨some "https://cdn.example.com/a.jpg", "photo", "No caption", PyVal.int 7⟩,
         ⟨Option.none, "photo", "No caption", PyVal.int 7⟩]
  ∧ (∀ medias, (ingest_media_items medias).all (fun si => urlTruthy si.url) = true)
  ∧ (∀ items, build_media_group items
        = (items.filter (fun mi => urlTruthy mi.url)).map media_item_to_input) := by
  refine ⟨rfl, ?_, build_media_group_eq_filter⟩
  intro medias
  simp [ingest_media_items, List.all_eq_true, List.mem_filter]

/-- C6 counterexample: two posts resolving to the same URL are both
ingested — after ingestion the session media list contains two items with
the same resolved URL, so no ingestion-time deduplication of identical
resolved URLs across items takes place. -/
theorem c6_ingestion_keeps_duplicate_urls :
    (ingest_media_items [c6Media, c6Media]).map MediaItem.url
      = [some "https://cdn.example.com/a.jpg", some "https://cdn.example.com/a.jpg"]
  ∧ (ingest_media_items [c6Media, c6Media]).length = 2 :=
  ⟨rfl, rfl⟩

/-- Deduplication helper: deduplicating twice with the same `seen`
accumulator is the same as deduplicating once. -/
theorem dedupGo_idem (l : List String) : ∀ seen, dedupGo seen (dedupGo seen l) = dedupGo seen l := by
  induction l with
  | nil => intro seen; rfl
  | cons u rest ih =>
    intro seen
    by_cases h : seen.contains u = true
    · simp only [dedupGo, h, if_true]
      exact ih seen
    · have h' : seen.contains u = false := by simpa using h
      simp only [dedupGo, h', Bool.false_eq_true, if_false, if_neg]
      rw [ih (u :: seen)]

/-- Deduplication helper: `dedupFirst` of a non-empty list is non-empty. -/
theorem dedupFirst_isEmpty (l : List String) : (dedupFirst l).isEmpty = l.isEmpty := by
  cases l with
  | nil => rfl
  | cons u rest => rfl

/-- C6 amended: deduplication of identical resolved URLs happens once, per
extracted item, inside `choose_best_url` (which is invariant under
pre-deduplicating its candidate list); ingestion appends items without any
cross-item deduplication, and pages are plain slices, so duplicate-URL
items from distinct posts survive all the way into a delivered page. -/
theorem c6_amended_dedup_inside_choose_best_url :
    (∀ (urls : List String) (pv : Bool),
        choose_best_url urls pv = choose_best_url (dedupFirst urls) pv)
  ∧ (posts_page (ingest_media_items [c6Media, c6Media]) 0).map MediaItem.url
      = [some "https://cdn.example.com/a.jpg", some "https://cdn.example.com/a.jpg"] := by
  refine ⟨?_, rfl⟩
  intro urls pv
  unfold choose_best_url
  rw [dedupFirst_isEmpty]
  by_cases he : urls.isEmpty = true
  · rw [if_pos he, if_pos he]
  · have he' : urls.isEmpty = false := by simpa using he
    rw [he']
    simp only [Bool.false_eq_true, if_false]
    unfold dedupFirst
    rw [dedupGo_idem]

/-- Pager helper: there is always at least one page. -/
theorem total_pages_pos (items : List MediaItem) : 1 ≤ total_pages items := by
  unfold total_pages
  by_cases h : items.isEmpty = true
  · rw [if_pos h]
  · have he : items.isEmpty = false := by simpa using h
    rw [he]
    simp only [Bool.false_eq_true, if_false]
    have hlen : 1 ≤ items.length := by
      cases items with
      | nil => simp at he
      | cons a l => simp
    have h4 : (0 : Nat) < page_size := by decide
    rw [Nat.le_div_iff_mul_le h4]
    simp only [page_size]
    omega

/-- Pager helper: the pages cover the whole list. -/
theorem length_le_pages_mul (items : List MediaItem) :
    items.length ≤ page_size * total_pages items := by
  unfold total_pages
  by_cases h : items.isEmpty = true
  · have : items = [] := by
      cases items with
      | nil => rfl
      | cons a l => simp at h
    subst this
    decide
  · have he : items.isEmpty = false := by simpa using h
    rw [he]
    simp only [Bool.false_eq_true, if_false, page_size]
    have hdm := Nat.div_add_mod (items.length + 3) 4
    have hm : (items.length + 3) % 4 < 4 := Nat.mod_lt _ (by decide)
    omega

/-- Pager helper: consecutive `page_size`-slices flatten back to the list
once there are enough pages. -/
theorem pages_flatten (n : Nat) : ∀ (l : List MediaItem), l.length ≤ page_size * n →
    ((List.range n).map (fun i => (l.drop (i * page_size)).take page_size)).flatten = l := by
  induction n with
  | zero =>
    intro l h
    have h0 : l.length = 0 := Nat.le_zero.mp (by simpa using h)
    have hnil : l = [] := List.eq_nil_of_length_eq_zero h0
    subst hnil
    rfl
  | succ n ih =>
    intro l h
    rw [List.range_succ_eq_map, List.map_cons, List.flatten_cons, List.map_map]
    have h2 : (List.range n).map ((fun i => (l.drop (i * page_size)).take page_size) ∘ Nat.succ)
        = (List.range n).map (fun i => ((l.drop page_size).drop (i * page_size)).take page_size) := by
      refine List.map_congr_left ?_
      intro i _
      simp only [Function.comp_apply, page_size]
      rw [List.drop_drop]
      congr 2
      omega
    rw [h2]
    rw [ih (l.drop page_size) (by
      rw [List.length_drop]
      simp only [page_size] at h ⊢
      omega)]
    rw [Nat.zero_mul, List.drop_zero]
    exact List.take_append_drop page_size l

/-- C3: the posts pager clamps the used page index into
`[0, total_pages - 1]`, computes `total_pages = max 1 (ceil N / 4)`, and its
pages exactly partition the session media list — no item is duplicated or
omitted. -/
theorem c3_pager_clamps_and_partitions (items : List MediaItem) (idx : Int) :
    clamped_page_index items idx < total_pages items
  ∧ total_pages items = max 1 ((items.length + page_size - 1) / page_size)
  ∧ ((List.range (total_pages items)).map (fun i : Nat => posts_page items (i : Int))).flatten
      = items := by
  have h1 : 1 ≤ total_pages items := total_pages_pos items
  refine ⟨?_, ?_, ?_⟩
  · unfold clamped_page_index
    have h3 : max 0 (min idx ((total_pages items : Int) - 1)) ≤ (total_pages items : Int) - 1 :=
      max_le (by omega) (min_le_right _ _)
    omega
  · unfold total_pages
    by_cases h : items.isEmpty = true
    · rw [if_pos h]
      have : items = [] := by
        cases items with
        | nil => rfl
        | cons a l => simp at h
      subst this
      decide
    · have he : items.isEmpty = false := by simpa using h
      rw [he]
      simp only [Bool.false_eq_true, if_false]
      refine (Nat.max_eq_right ?_).symm
      have hx := total_pages_pos items
      unfold total_pages at hx
      rw [he] at hx
      simpa using hx
  · have hmc : ∀ i ∈ List.range (total_pages items),
        posts_page items (i : Int) = (items.drop (i * page_size)).take page_size := by
      intro i hi
      have hi' : i < total_pages items := List.mem_range.mp hi
      unfold posts_page clamped_page_index
      have hmin : min (i : Int) ((total_pages items : Int) - 1) = (i : Int) :=
        min_eq_left (by omega)
      rw [hmin, max_eq_right (by omega : (0 : Int) ≤ (i : Int))]
      simp
    rw [List.map_congr_left hmc]
    exact pages_flatten (total_pages items) items (length_le_pages_mul items)

/-- C5: for every stored language known to `TRANSLATIONS`, sending the
report menu text from the `CHOOSING` state always moves the session to
`REPORTING` (with the report prompt), and from `REPORTING` every text input
— regardless of admin configuration or send success — returns the session
to `CHOOSING`; the empty input is answered with the rejection message but
still yields `CHOOSING`. -/
theorem c5_report_trigger_and_return (lang : String) (t : Translation)
    (h : TRANSLATIONS.lookup lang = some t) :
    (∀ searchResult, handle_choice (some lang) (some t.main_menu_report) searchResult
        = some (ConvState.REPORTING, [t.report_prompt]))
  ∧ (∀ msgText admin sendOk, ∃ replies,
        handle_report_message (some lang) msgText admin sendOk
          = some (ConvState.CHOOSING, replies))
  ∧ (∀ admin sendOk, handle_report_message (some lang) (some "") admin sendOk
        = some (ConvState.CHOOSING, [t.report_empty])) := by
  have hcases : (lang = "en" ∧ t = enT) ∨ (lang = "ru" ∧ t = ruT) := by
    by_cases h1 : lang = "en"
    · subst h1
      have h' : some enT = some t := h
      exact Or.inl ⟨rfl, (Option.some.inj h').symm⟩
    · by_cases h2 : lang = "ru"
      · subst h2
        have h' : some ruT = some t := h
        exact Or.inr ⟨rfl, (Option.some.inj h').symm⟩
      · exfalso
        have e1 : (lang == "en") = false := by simpa using h1
        have e2 : (lang == "ru") = false := by simpa using h2
        have : TRANSLATIONS.lookup lang = Option.none := by
          simp [TRANSLATIONS, List.lookup, e1, e2]
        rw [this] at h
        exact Option.noConfusion h
  have hred : ∀ (msgText : Option String) (admin : Option Int) (sendOk : Bool),
      handle_report_message (some lang) msgText admin sendOk
        = (if pyStrip (msgText.getD "") = "" then some (ConvState.CHOOSING, [t.report_empty])
           else if adminConfigured admin then
             some (ConvState.CHOOSING, [if sendOk then t.report_sent else t.report_failed])
           else some (ConvState.CHOOSING, [t.no_admin])) := by
    intro mt admin so
    unfold handle_report_message
    simp only [Option.getD_some]
    rw [h]
  refine ⟨?_, ?_, ?_⟩
  · rcases hcases with ⟨hl, ht⟩ | ⟨hl, ht⟩ <;> subst hl <;> subst ht <;>
      exact fun searchResult => rfl
  · intro mt admin so
    rw [hred mt admin so]
    by_cases hs : pyStrip (mt.getD "") = ""
    · exact ⟨_, by rw [if_pos hs]⟩
    · by_cases ha : adminConfigured admin = true
      · exact ⟨_, by rw [if_neg hs, if_pos ha]⟩
      · exact ⟨_, by rw [if_neg hs, if_neg ha]⟩
  · intro admin so
    rw [hred (some "") admin so]
    rfl

/-- C5, witnessed in English: the report menu text triggers `REPORTING`, a
non-empty report returns to `CHOOSING`, and the empty report is rejected
but still returns to `CHOOSING`. -/
theorem c5_report_trigger_and_return_witness :
    TRANSLATIONS.lookup "en" = some enT
  ∧ handle_choice (some "en") (some enT.main_menu_report) Option.none
      = some (ConvState.REPORTING, [enT.report_prompt])
  ∧ (∃ replies, handle_report_message (some "en") (some "it is broken") (some 5) true
      = some (ConvState.CHOOSING, replies))
  ∧ handle_report_message (some "en") (some "") Option.none true
      = some (ConvState.CHOOSING, [enT.report_empty]) := by
  have h := c5_report_trigger_and_return "en" enT rfl
  exact ⟨rfl, h.1 Option.none, h.2.1 (some "it is broken") (some 5) true,
    h.2.2 Option.none true⟩

end Brot
